import Mathlib

/-!
Verification development for the CNC G-code modal interpreter
(`src/common/gcode.py` plus the planar arc extension in
`src/xy_runner/xy_runner.py` and the spatial wrapper in
`src/xyz_runner/xyz_runner.py`).

The interpreter core is embedded shallowly:
* text processing (comment stripping, `strip()`, tokenization by the regex
  `[A-Za-z][+\-0-9\.]*`) works on `List Char`;
* Python `float(...)` on the value alphabet `{0-9, +, -, .}` is modelled as
  an exact decimal parser into `Option Rat`;
* the mutable `BaseModalState`/`ModalState3D` dataclass becomes a record
  threaded through `exec`, with the per-axis attributes `xpos`/`ypos`/`zpos`
  represented as a function from the axis letter;
* driver side effects (`home`, `set_units_mm`, `set_units_inch`, `move_abs`)
  become an explicit call trace, and `NotImplementedError` / a raising
  driver become an error component of the result;
* the planar arc decomposition (`GCodeWrapper._handle_extended_motion`),
  which is trigonometric, is embedded separately over the reals.
-/

namespace CNC

/-! ## Character classes and text processing (`BaseGCodeInterpreter._strip_comment`, `exec` preamble) -/

/-- ASCII letter test, the `[A-Za-z]` part of the tokenizer regex. -/
def isAsciiLetter (c : Char) : Bool :=
  ('A' ≤ c && c ≤ 'Z') || ('a' ≤ c && c ≤ 'z')

/-- Characters allowed in a word value, the `[+\-0-9\.]` part of the regex. -/
def isValChar (c : Char) : Bool :=
  c.isDigit || c = '+' || c = '-' || c = '.'

/-- Whitespace stripped by Python `str.strip()` (ASCII portion). -/
def isPySpace (c : Char) : Bool :=
  c = ' ' || c = '\t' || c = '\n' || c = '\r' || c = '\x0b' || c = '\x0c'

/-- Python `str.strip()`: drop leading and trailing whitespace. -/
def pyStrip (l : List Char) : List Char :=
  ((l.dropWhile isPySpace).reverse.dropWhile isPySpace).reverse

/-- Skip characters up to and including the first `)`, reporting the suffix
after it; `none` when no `)` occurs.  Helper for the non-greedy
`re.sub(r"\(.*?\)", "", source)`. -/
def dropThroughClose : List Char → Option (List Char)
  | [] => none
  | c :: r => if c = ')' then some r else dropThroughClose r

/-- Structural worker for `stripParens`: each step consumes at least one
character and one unit of fuel, so fuel equal to the length of the input is
always sufficient and the fuel-0 case is only reached on the empty list. -/
def stripParensFuel : Nat → List Char → List Char
  | 0, l => l
  | _ + 1, [] => []
  | fuel + 1, c :: rest =>
    if c = '(' then
      match dropThroughClose rest with
      | some rest' => stripParensFuel fuel rest'
      | none => c :: rest
    else c :: stripParensFuel fuel rest

/-- Model of `re.sub(r"\(.*?\)", "", source)`: remove every non-greedy `( ... )`
span, scanning left to right; a `(` with no later `)` is kept verbatim. -/
def stripParens (l : List Char) : List Char :=
  stripParensFuel l.length l

/-- Model of `BaseGCodeInterpreter._strip_comment`: remove `( ... )` spans, then keep
only the text before the first `;`. -/
def stripComment (l : List Char) : List Char :=
  (stripParens l).takeWhile (fun c => c ≠ ';')

/-- One tokenized word: the leading letter and the raw value text. -/
abbrev GWord := Char × List Char

/-- Structural worker for `findWords`, fuelled like `stripParensFuel`. -/
def findWordsFuel : Nat → List Char → List GWord
  | 0, _ => []
  | _ + 1, [] => []
  | fuel + 1, c :: rest =>
    if isAsciiLetter c then
      (c, rest.takeWhile isValChar) :: findWordsFuel fuel (rest.dropWhile isValChar)
    else findWordsFuel fuel rest

/-- Model of `re.findall(r"[A-Za-z][+\-0-9\.]*", line)`: each ASCII letter starts a
word that greedily takes the following value characters. -/
def findWords (l : List Char) : List GWord :=
  findWordsFuel l.length l

/-- Model of `line.startswith("$H")` on the cleaned line. -/
def startsHome : List Char → Bool
  | '$' :: 'H' :: _ => true
  | _ => false

/-! ## Numeric parsing: Python `float` / `int(float(...))` on the value alphabet -/

/-- Decimal digits to a natural number. -/
def digitsToNat (l : List Char) : Nat :=
  l.foldl (fun n c => 10 * n + (c.toNat - 48)) 0

/-- Unsigned part of Python `float(...)` restricted to the value alphabet:
`digits`, `digits.digits`, `digits.`, `.digits`; anything else fails. -/
def parseUnsignedDec (l : List Char) : Option ℚ :=
  let ip := l.takeWhile Char.isDigit
  match l.dropWhile Char.isDigit with
  | [] => if ip = [] then none else some (digitsToNat ip : ℚ)
  | '.' :: fp =>
    if fp.all Char.isDigit ∧ (ip ≠ [] ∨ fp ≠ []) then
      some ((digitsToNat ip : ℚ) + (digitsToNat fp : ℚ) / (10 : ℚ) ^ fp.length)
    else none
  | _ => none

/-- Python `float(value)` for a word value (exact, as a rational): an
optional single sign followed by an unsigned decimal. -/
def parseDec : List Char → Option ℚ
  | '+' :: r => parseUnsignedDec r
  | '-' :: r => (parseUnsignedDec r).map (fun q => -q)
  | l => parseUnsignedDec l

/-- Python `int(...)` on a float value: truncation toward zero. -/
def truncQ (q : ℚ) : ℤ :=
  if 0 ≤ q then ⌊q⌋ else ⌈q⌉

/-! ## Modal state, driver, interpreter configuration -/

/-- Model of `BaseModalState` / `ModalState3D`: unit flag, coordinate mode, feed, and
the per-axis position attributes (`xpos` … accessed through
`getattr(self.m, f"{axis.lower()}pos", 0.0)`), modelled as a function from
the (uppercase) axis letter. -/
structure ModalState where
  units_mm : Bool
  absolute : Bool
  feed : ℚ
  pos : Char → ℚ

/-- The dataclass defaults: mm units, absolute mode, feed `1200.0`, all
positions `0.0`. -/
def initState : ModalState :=
  { units_mm := true, absolute := true, feed := 1200, pos := fun _ => 0 }

/-- One observable driver side effect. -/
inductive DCall where
  | home : DCall
  | setUnitsMm : DCall
  | setUnitsInch : DCall
  | moveAbs (kwargs : List (Char × ℚ)) (feed : Option ℚ) (rapid : Bool) : DCall
deriving DecidableEq

/-- Whether a driver call is a `move_abs` call. -/
def DCall.isMove : DCall → Bool
  | .moveAbs _ _ _ => true
  | _ => false

/-- The driver as seen by the interpreter: which optional capabilities
`hasattr` finds, and whether `move_abs` raises when called. -/
structure Driver where
  hasHome : Bool
  hasSetUnitsMm : Bool
  hasSetUnitsInch : Bool
  moveRaises : Bool

/-- A `SimDriver`-like driver: all capabilities present, `move_abs` never
raises. -/
def simDrv : Driver :=
  { hasHome := true, hasSetUnitsMm := true, hasSetUnitsInch := true,
    moveRaises := false }

/-- The class-level configuration of a `LinearGCodeInterpreter` variant:
`linear_axes`, `extra_params`, `motion_g_codes`. -/
structure InterpConfig where
  linear_axes : List Char
  extra_params : List Char
  motion_g_codes : List ℤ

/-- Configuration of `GCodeWrapper3D` (spatial variant): axes X,Y,Z; extra parameters
I,J,K; motion codes `(0, 1)`. -/
def cfg3D : InterpConfig :=
  { linear_axes := ['X', 'Y', 'Z'], extra_params := ['I', 'J', 'K'],
    motion_g_codes := [0, 1] }

/-- The failures `exec` can surface: `NotImplementedError` for an
unsupported motion code (carrying the code), or an exception raised by the
driver inside `move_abs`. -/
inductive GErr where
  | unsupported (g : ℤ) : GErr
  | driverError : GErr
deriving DecidableEq

/-- Outcome of one `exec` call: the modal state afterwards (mutations made
before a raise persist), the driver calls made, and the error if one was
raised. -/
structure ExecResult where
  state : ModalState
  calls : List DCall
  err : Option GErr

/-! ## Modal application and feed update (`_apply_modal`, `_update_feed`) -/

/-- One step of the `_apply_modal` loop over the words. -/
def applyModalStep (drv : Driver) (st : ModalState × List DCall) (w : GWord) :
    ModalState × List DCall :=
  if w.1.toUpper = 'G' then
    match parseDec w.2 with
    | none => st
    | some g =>
      if g = 20 then
        ({ st.1 with units_mm := false },
         st.2 ++ (if drv.hasSetUnitsInch then [DCall.setUnitsInch] else []))
      else if g = 21 then
        ({ st.1 with units_mm := true },
         st.2 ++ (if drv.hasSetUnitsMm then [DCall.setUnitsMm] else []))
      else if g = 90 then ({ st.1 with absolute := true }, st.2)
      else if g = 91 then ({ st.1 with absolute := false }, st.2)
      else st
  else st

/-- Model of `BaseGCodeInterpreter._apply_modal`: fold the modal codes 20/21/90/91
over the words, recording the unit-change driver calls. -/
def applyModal (drv : Driver) (words : List GWord) (m : ModalState) :
    ModalState × List DCall :=
  words.foldl (applyModalStep drv) (m, [])

/-- One step of the `_update_feed` loop. -/
def updateFeedStep (st : ModalState) (w : GWord) : ModalState :=
  if w.1.toUpper = 'F' then
    match parseDec w.2 with
    | some f => { st with feed := f }
    | none => st
  else st

/-- Model of `BaseGCodeInterpreter._update_feed`: each parsable `F` word overwrites
the stored feed with the raw parsed value. -/
def updateFeed (words : List GWord) (m : ModalState) : ModalState :=
  words.foldl updateFeedStep m

/-- Model of `BaseGCodeInterpreter._contains_motion`: some `G` word parses (as
`int(float(...))`) to one of the configured motion codes. -/
def containsMotion (cfg : InterpConfig) (words : List GWord) : Bool :=
  words.any fun w =>
    if w.1.toUpper = 'G' then
      match parseDec w.2 with
      | some q => decide (truncQ q ∈ cfg.motion_g_codes)
      | none => false
    else false

/-! ## Motion handling (`LinearGCodeInterpreter._handle_motion` and below) -/

/-- One step of the collection loop in `_handle_motion`: a parsable `G`
word overwrites the motion code, a parsable axis / extra-parameter / `F`
word overwrites its entry in the parameter dict. -/
def scanMotionStep (cfg : InterpConfig) (acc : Option ℤ × (Char → Option ℚ))
    (w : GWord) : Option ℤ × (Char → Option ℚ) :=
  let c := w.1.toUpper
  if c = 'G' then
    match parseDec w.2 with
    | some q => (some (truncQ q), acc.2)
    | none => acc
  else if c ∈ cfg.linear_axes ∨ c ∈ cfg.extra_params ∨ c = 'F' then
    match parseDec w.2 with
    | some q => (acc.1, Function.update acc.2 c (some q))
    | none => acc
  else acc

/-- The collection loop of `_handle_motion`: the last parsable `G` word
wins, parameters are collected into a dict keyed by the letter. -/
def scanMotion (cfg : InterpConfig) (words : List GWord) :
    Option ℤ × (Char → Option ℚ) :=
  words.foldl (scanMotionStep cfg) (none, fun _ => none)

/-- Model of `BaseGCodeInterpreter._unit_to_mm`. -/
def unitToMm (m : ModalState) (v : ℚ) : ℚ :=
  if m.units_mm then v else v * 25.4

/-- Target for one axis in `_handle_linear_move`: present ⇒ unit-converted
value (absolute) or current + converted (relative); absent ⇒ current. -/
def linearTarget (m : ModalState) (params : Char → Option ℚ) (a : Char) : ℚ :=
  match params a with
  | some raw =>
    let delta := unitToMm m raw
    if m.absolute then delta else m.pos a + delta
  | none => m.pos a

/-- Commit the computed targets into the per-axis position attributes
(the trailing `setattr` loop of `_handle_linear_move`). -/
def commitTargets (m : ModalState) (ts : List (Char × ℚ)) : ModalState :=
  ts.foldl (fun st p => { st with pos := Function.update st.pos p.1 p.2 }) m

/-- Model of `LinearGCodeInterpreter._handle_linear_move`: compute all targets from
the pre-move state, issue one `move_abs`, and only after it returns commit
the targets; a raising driver leaves every position untouched. -/
def handleLinearMove (cfg : InterpConfig) (drv : Driver) (g : ℤ)
    (params : Char → Option ℚ) (m : ModalState) : ExecResult :=
  let targets := cfg.linear_axes.map fun a => (a, linearTarget m params a)
  let feedValue : ℚ :=
    match params 'F' with
    | some f => unitToMm m f
    | none => m.feed
  let call := DCall.moveAbs (targets.map fun p => (p.1.toLower, p.2))
    (some feedValue) (g = 0)
  if drv.moveRaises then
    { state := m, calls := [call], err := some GErr.driverError }
  else
    { state := commitTargets m targets, calls := [call], err := none }

/-- Model of `_handle_motion` after the collection loop: G0/G1 go to the linear
handler; anything else goes to the base `_handle_extended_motion`, which
returns silently on `None` and raises `NotImplementedError` otherwise
(this is the behavior of `LinearGCodeInterpreter` and of `GCodeWrapper3D`,
whose override just delegates to the base). -/
def handleMotion (cfg : InterpConfig) (drv : Driver) (words : List GWord)
    (m : ModalState) : ExecResult :=
  let gp := scanMotion cfg words
  if gp.1 = some 0 then handleLinearMove cfg drv 0 gp.2 m
  else if gp.1 = some 1 then handleLinearMove cfg drv 1 gp.2 m
  else
    match gp.1 with
    | none => { state := m, calls := [], err := none }
    | some g => { state := m, calls := [], err := some (GErr.unsupported g) }

/-- Model of `BaseGCodeInterpreter.exec`: strip comments and whitespace, short-circuit
empty lines, handle the `$H` homing shortcut, tokenize, apply modal codes
and feed words, then run motion handling only when a configured motion code
is present. -/
def exec (cfg : InterpConfig) (drv : Driver) (m : ModalState) (line : String) :
    ExecResult :=
  let cleaned := pyStrip (stripComment line.toList)
  if cleaned = [] then { state := m, calls := [], err := none }
  else if startsHome cleaned then
    { state := m, calls := if drv.hasHome then [DCall.home] else [],
      err := none }
  else
    let words := findWords cleaned
    if words = [] then { state := m, calls := [], err := none }
    else
      let mc := applyModal drv words m
      let m2 := updateFeed words mc.1
      if containsMotion cfg words then
        let r := handleMotion cfg drv words m2
        { state := r.state, calls := mc.2 ++ r.calls, err := r.err }
      else { state := m2, calls := mc.2, err := none }

/-! ## Planar arc decomposition (`GCodeWrapper._handle_extended_motion`)

The arc geometry of the XY variant uses `math.atan2`, `math.acos`,
`math.hypot`, `math.cos`, `math.sin` and `math.pi`, so this part of the
code is embedded over the real numbers.  `math.atan2 y x` is the argument
of the complex number `x + y*i`, valued in `(-π, π]`. -/

/-- Model of `math.atan2 y x` as the complex argument of `⟨x, y⟩`. -/
noncomputable def atan2R (y x : ℝ) : ℝ :=
  Complex.arg ⟨x, y⟩

/-- A 2-axis modal state with real-valued coordinates, for the arc
handler (`ModalState2D` as the XY wrapper uses it). -/
structure MState2 where
  units_mm : Bool
  absolute : Bool
  feed : ℝ
  xpos : ℝ
  ypos : ℝ

/-- Model of `_unit_to_mm` over the reals. -/
def unitToMmR (m : MState2) (v : ℝ) : ℝ :=
  if m.units_mm then v else v * 25.4

/-- Arc end point, x coordinate: lines 85–93 of `xy_runner.py`. -/
def arcEndX (m : MState2) (params : Char → Option ℝ) : ℝ :=
  match params 'X' with
  | some raw => if m.absolute then unitToMmR m raw else m.xpos + unitToMmR m raw
  | none => if m.absolute then m.xpos else m.xpos + 0

/-- Arc end point, y coordinate. -/
def arcEndY (m : MState2) (params : Char → Option ℝ) : ℝ :=
  match params 'Y' with
  | some raw => if m.absolute then unitToMmR m raw else m.ypos + unitToMmR m raw
  | none => if m.absolute then m.ypos else m.ypos + 0

/-- Arc center, x coordinate: `cx = xpos + unit_to_mm(params.get("I", 0.0))`. -/
def arcCenterX (m : MState2) (params : Char → Option ℝ) : ℝ :=
  m.xpos + unitToMmR m ((params 'I').getD 0)

/-- Arc center, y coordinate. -/
def arcCenterY (m : MState2) (params : Char → Option ℝ) : ℝ :=
  m.ypos + unitToMmR m ((params 'J').getD 0)

/-- The signed sweep after the sign-normalization step (lines 102–110):
naive `end - start` of the two `atan2` angles, then forced negative for
clockwise (G2) and positive for counter-clockwise (G3) by a full turn. -/
noncomputable def sweepNorm (cw : Bool) (sx sy ex ey cx cy : ℝ) : ℝ :=
  let startA := atan2R (sy - cy) (sx - cx)
  let endA := atan2R (ey - cy) (ex - cx)
  let d := endA - startA
  if cw then (if 0 ≤ d then d - 2 * Real.pi else d)
  else (if d ≤ 0 then d + 2 * Real.pi else d)

/-- The delivered sweep of an arc command, as the handler computes it. -/
noncomputable def arcSweep (m : MState2) (cw : Bool) (params : Char → Option ℝ) : ℝ :=
  sweepNorm cw m.xpos m.ypos (arcEndX m params) (arcEndY m params)
    (arcCenterX m params) (arcCenterY m params)

/-- Model of `radius = math.hypot(xpos - cx, ypos - cy)`. -/
noncomputable def arcRadius (m : MState2) (params : Char → Option ℝ) : ℝ :=
  Real.sqrt ((m.xpos - arcCenterX m params) ^ 2 + (m.ypos - arcCenterY m params) ^ 2)

/-- Model of `max_d = 2 * acos(max(0.0, 1 - e / max(radius, 1e-9)))` with `e = 0.02`. -/
noncomputable def arcMaxStep (radius : ℝ) : ℝ :=
  2 * Real.arccos (max 0 (1 - 0.02 / max radius 1e-9))

/-- Model of `steps = max(12, int(math.ceil(abs(sweep) / max(1e-3, max_d))))`. -/
noncomputable def arcSteps (sweep radius : ℝ) : ℤ :=
  max 12 ⌈|sweep| / max 1e-3 (arcMaxStep radius)⌉

/-- Model of `GCodeWrapper._handle_extended_motion` for `gcode ∈ {2, 3}`
(`cw = (gcode == 2)`): resolve end point, center, feed, sweep, radius and
step count, emit one `move_abs(px, py, feed, rapid=False)` per step
`k = 1 .. steps`, and commit only the end point afterwards.  Result: the
new state and the list of `(px, py, feed)` triples sent to the driver. -/
noncomputable def handleArc (m : MState2) (cw : Bool) (params : Char → Option ℝ) :
    MState2 × List (ℝ × ℝ × ℝ) :=
  let ex := arcEndX m params
  let ey := arcEndY m params
  let cx := arcCenterX m params
  let cy := arcCenterY m params
  let feed : ℝ :=
    match params 'F' with
    | some f => unitToMmR m f
    | none => m.feed
  let startA := atan2R (m.ypos - cy) (m.xpos - cx)
  let sweep := arcSweep m cw params
  let radius := arcRadius m params
  let steps := arcSteps sweep radius
  let moves := (List.range steps.toNat).map fun k : Nat =>
    let th := startA + sweep * (((k + 1 : Nat) : ℝ) / (steps : ℝ))
    (cx + radius * Real.cos th, cy + radius * Real.sin th, feed)
  ({ m with xpos := ex, ypos := ey }, moves)

/-! ## Helper lemmas -/

theorem applyModalStep_pos_feed (drv : Driver) (st : ModalState × List DCall)
    (w : GWord) :
    (applyModalStep drv st w).1.pos = st.1.pos ∧
      (applyModalStep drv st w).1.feed = st.1.feed := by
  unfold applyModalStep
  repeat' split
  all_goals exact ⟨rfl, rfl⟩

theorem applyModal_fold_pos_feed (drv : Driver) (ws : List GWord) :
    ∀ st : ModalState × List DCall,
      (ws.foldl (applyModalStep drv) st).1.pos = st.1.pos ∧
        (ws.foldl (applyModalStep drv) st).1.feed = st.1.feed := by
  induction ws with
  | nil => intro st; exact ⟨rfl, rfl⟩
  | cons w ws ih =>
    intro st
    rw [List.foldl_cons]
    obtain ⟨h1, h2⟩ := ih (applyModalStep drv st w)
    obtain ⟨g1, g2⟩ := applyModalStep_pos_feed drv st w
    exact ⟨h1.trans g1, h2.trans g2⟩

theorem applyModal_pos (drv : Driver) (ws : List GWord) (m : ModalState) :
    (applyModal drv ws m).1.pos = m.pos :=
  (applyModal_fold_pos_feed drv ws (m, [])).1

theorem applyModalStep_calls (drv : Driver) (st : ModalState × List DCall)
    (w : GWord) :
    ∀ c ∈ (applyModalStep drv st w).2,
      c ∈ st.2 ∨ c = DCall.setUnitsInch ∨ c = DCall.setUnitsMm := by
  intro c hc
  unfold applyModalStep at hc
  repeat' split at hc
  all_goals try simp at hc
  all_goals tauto

theorem applyModal_fold_calls (drv : Driver) (ws : List GWord) :
    ∀ st : ModalState × List DCall,
      (∀ c ∈ st.2, c.isMove = false) →
        ∀ c ∈ (ws.foldl (applyModalStep drv) st).2, c.isMove = false := by
  induction ws with
  | nil => intro st h; exact h
  | cons w ws ih =>
    intro st h
    rw [List.foldl_cons]
    refine ih (applyModalStep drv st w) ?_
    intro c hc
    rcases applyModalStep_calls drv st w c hc with h1 | h1 | h1
    · exact h c h1
    · rw [h1]; rfl
    · rw [h1]; rfl

theorem applyModal_calls (drv : Driver) (ws : List GWord) (m : ModalState) :
    ∀ c ∈ (applyModal drv ws m).2, c.isMove = false := by
  refine applyModal_fold_calls drv ws (m, []) ?_
  intro c hc
  simp at hc

theorem updateFeedStep_frame (st : ModalState) (w : GWord) :
    (updateFeedStep st w).pos = st.pos ∧
      (updateFeedStep st w).units_mm = st.units_mm ∧
      (updateFeedStep st w).absolute = st.absolute := by
  unfold updateFeedStep
  repeat' split
  all_goals exact ⟨rfl, rfl, rfl⟩

theorem updateFeed_pos (ws : List GWord) :
    ∀ m : ModalState, (updateFeed ws m).pos = m.pos := by
  induction ws with
  | nil => intro m; rfl
  | cons w ws ih =>
    intro m
    unfold updateFeed at ih ⊢
    rw [List.foldl_cons]
    exact (ih (updateFeedStep m w)).trans (updateFeedStep_frame m w).1

/-- A line whose words contain no configured motion code: `exec` keeps the
positions, makes no `move_abs` call, and raises nothing. -/
theorem exec_no_motion (cfg : InterpConfig) (drv : Driver) (m : ModalState)
    (line : String)
    (h : containsMotion cfg (findWords (pyStrip (stripComment line.toList))) = false) :
    (exec cfg drv m line).state.pos = m.pos ∧
      (∀ c ∈ (exec cfg drv m line).calls, c.isMove = false) ∧
      (exec cfg drv m line).err = none := by
  by_cases h1 : pyStrip (stripComment line.toList) = []
  · have he : exec cfg drv m line = { state := m, calls := [], err := none } := by
      simp only [exec, if_pos h1]
    rw [he]
    exact ⟨rfl, by simp, rfl⟩
  · by_cases h2 : startsHome (pyStrip (stripComment line.toList)) = true
    · have he : exec cfg drv m line =
          { state := m,
            calls := if drv.hasHome = true then [DCall.home] else [],
            err := none } := by
        simp only [exec, if_neg h1, if_pos h2]
      rw [he]
      refine ⟨rfl, ?_, rfl⟩
      intro c hc
      by_cases h3 : drv.hasHome = true
      · simp only [h3, if_true, List.mem_singleton] at hc
        rw [hc]; rfl
      · simp [h3] at hc
    · by_cases h3 : findWords (pyStrip (stripComment line.toList)) = []
      · have he : exec cfg drv m line = { state := m, calls := [], err := none } := by
          simp only [exec, if_neg h1, if_neg h2, if_pos h3]
        rw [he]
        exact ⟨rfl, by simp, rfl⟩
      · have hfalse :
            ¬(containsMotion cfg (findWords (pyStrip (stripComment line.toList)))
              = true) := by
          rw [h]
          simp
        have he : exec cfg drv m line =
            { state := updateFeed (findWords (pyStrip (stripComment line.toList)))
                (applyModal drv (findWords (pyStrip (stripComment line.toList))) m).1,
              calls :=
                (applyModal drv (findWords (pyStrip (stripComment line.toList))) m).2,
              err := none } := by
          simp only [exec, if_neg h1, if_neg h2, if_neg h3, if_neg hfalse]
        rw [he]
        exact ⟨(updateFeed_pos _ _).trans (applyModal_pos drv _ m),
          applyModal_calls drv _ m, rfl⟩

/-! ## Claims -/

/-- Claim C8 (confirmed): an input line that is empty or whitespace-only
after comment stripping (non-greedy removal of `( ... )` spans, then
truncation at the first `;`) makes `exec` return with zero driver calls,
every modal-state field unchanged, and no error. -/
theorem c8_blank_line_noop (cfg : InterpConfig) (drv : Driver) (m : ModalState)
    (line : String) (h : pyStrip (stripComment line.toList) = []) :
    exec cfg drv m line = { state := m, calls := [], err := none } := by
  simp only [exec, if_pos h]

/-- Witness for C8: the two scenario lines from the spec, a `;` comment line and a
`( ... )` comment line, are both complete no-ops. -/
theorem c8_blank_line_noop_witness :
    exec cfg3D simDrv initState "   ; just a comment" =
        { state := initState, calls := [], err := none } ∧
      exec cfg3D simDrv initState "(note) " =
        { state := initState, calls := [], err := none } :=
  ⟨c8_blank_line_noop cfg3D simDrv initState _ (by decide),
   c8_blank_line_noop cfg3D simDrv initState _ (by decide)⟩

/-- Claim C10 (confirmed): a line containing no `G` word whose value parses
(as `int(float(...))`) to a configured motion code — modal-only lines,
feed-only lines, `$H` homing lines — never leads to a `move_abs` call and
leaves every position field unchanged. -/
theorem c10_no_motion_frame (cfg : InterpConfig) (drv : Driver)
    (m : ModalState) (line : String)
    (h : containsMotion cfg (findWords (pyStrip (stripComment line.toList))) = false) :
    (exec cfg drv m line).state.pos = m.pos ∧
      ∀ c ∈ (exec cfg drv m line).calls, c.isMove = false :=
  ⟨(exec_no_motion cfg drv m line h).1, (exec_no_motion cfg drv m line h).2.1⟩

/-- Witness for C10: a modal-only line, a feed-only line and a homing line,
executed on the spatial variant from the default state. -/
theorem c10_no_motion_frame_witness :
    ((exec cfg3D simDrv initState "G21 G90").state.pos = initState.pos ∧
        ∀ c ∈ (exec cfg3D simDrv initState "G21 G90").calls, c.isMove = false) ∧
      ((exec cfg3D simDrv initState "F600").state.pos = initState.pos ∧
        ∀ c ∈ (exec cfg3D simDrv initState "F600").calls, c.isMove = false) ∧
      ((exec cfg3D simDrv initState "$H").state.pos = initState.pos ∧
        ∀ c ∈ (exec cfg3D simDrv initState "$H").calls, c.isMove = false) :=
  ⟨c10_no_motion_frame cfg3D simDrv initState _ (by decide),
   c10_no_motion_frame cfg3D simDrv initState _ (by decide),
   c10_no_motion_frame cfg3D simDrv initState _ (by decide)⟩

/-- Counterexample to C1: on the spatial variant (motion codes `{0, 1}`),
the line `"G2 X1 Y1 I0 J0"` does not raise at all — `_contains_motion`
rejects it and the line is silently ignored with zero driver calls. -/
theorem c1_counterexample :
    (exec cfg3D simDrv initState "G2 X1 Y1 I0 J0").err = none ∧
      (exec cfg3D simDrv initState "G2 X1 Y1 I0 J0").calls = [] := by
  constructor <;> rfl

/-- Claim C1 (corrected): a pure `G2` line on the spatial variant is
silently ignored (state unchanged, no calls, no error), because motion
handling is gated on the configured motion codes `{0, 1}`; the
"unsupported motion code" failure carrying the offending code is reachable
only when a configured motion code is also present and a later `G` word
parses outside `{0, 1}` — e.g. `"G1 G2 X1 Y1 I0 J0"` raises unsupported 2. -/
theorem c1_spatial_g2_ignored (drv : Driver) (m : ModalState) :
    exec cfg3D drv m "G2 X1 Y1 I0 J0" = { state := m, calls := [], err := none } ∧
      (exec cfg3D drv m "G1 G2 X1 Y1 I0 J0").err = some (GErr.unsupported 2) := by
  constructor <;> rfl

/-- Counterexample to C2: from the default state, `exec "G20"` (inch mode)
followed by `exec "F100"` stores feed `100` — the raw value — while the
claim requires `100 * 25.4 = 2540`. -/
theorem c2_counterexample :
    (exec cfg3D simDrv (exec cfg3D simDrv initState "G20").state "F100").state.units_mm
        = false ∧
      (exec cfg3D simDrv (exec cfg3D simDrv initState "G20").state "F100").state.feed
        = 100 ∧
      (100 : ℚ) ≠ 100 * 25.4 := by
  refine ⟨rfl, rfl, by norm_num⟩

/-- Claim C2 (corrected): stored positions are unit-converted at the input
boundary, but the stored feed is not: `_update_feed` writes the raw parsed
`F` value into `ModalState.feed` with no unit conversion, in inch mode as
in mm mode.  (Feed unit conversion happens only per motion line, for an
`F` word on that line, when the value is handed to the driver.) -/
theorem c2_feed_stored_raw (m : ModalState) (v : List Char) (q : ℚ)
    (h : parseDec v = some q) :
    updateFeed [('F', v)] m = { m with feed := q } := by
  unfold updateFeed updateFeedStep
  simp [h]

/-- Witness for C2 (corrected): `F100` in inch mode stores exactly `100`. -/
theorem c2_feed_stored_raw_witness :
    parseDec ['1', '0', '0'] = some 100 ∧
      (updateFeed [('F', ['1', '0', '0'])]
          { initState with units_mm := false }).feed = 100 := by
  refine ⟨by decide, ?_⟩
  rw [c2_feed_stored_raw { initState with units_mm := false } _ 100 (by decide)]

/-- Counterexample to C9: `exec "F-100"` from the default state stores the
negative feed `-100`; the feed field does not remain nonnegative. -/
theorem c9_counterexample :
    (exec cfg3D simDrv initState "F-100").state.feed = -100 ∧
      ¬(0 : ℚ) ≤ (exec cfg3D simDrv initState "F-100").state.feed := by
  have h : (exec cfg3D simDrv initState "F-100").state.feed = -100 := rfl
  refine ⟨h, ?_⟩
  rw [h]
  norm_num

/-- Claim C9 (corrected): a parsed feed value that fails to parse is indeed
ignored, leaving the prior feed intact; but any value that parses is stored
as-is, so an `F` word with a leading minus (`"F-100"`) drives the stored
feed negative. -/
theorem c9_feed_amended :
    (∀ (m : ModalState) (v : List Char), parseDec v = none →
        updateFeed [('F', v)] m = m) ∧
      ∀ (drv : Driver) (m : ModalState),
        (exec cfg3D drv m "F-100").state.feed = -100 := by
  constructor
  · intro m v h
    unfold updateFeed updateFeedStep
    simp [h]
  · intro drv m
    rfl

/-- Witness for C9 (corrected): the unparsable value `"--1"` leaves the
default feed `1200` in place. -/
theorem c9_feed_amended_witness :
    parseDec ['-', '-', '1'] = none ∧
      (updateFeed [('F', ['-', '-', '1'])] initState).feed = 1200 := by
  refine ⟨by decide, ?_⟩
  rw [c9_feed_amended.1 initState _ (by decide)]
  rfl

/-- Claim C3 (confirmed): for a G0/G1 motion line, the per-axis target is
the raw value converted to millimeters (`raw` in mm mode, `raw * 25.4` in
inch mode) in absolute mode, current position plus the converted value in
relative mode, and the unchanged current position when the axis is absent
from the collected parameters; and that target is what the single
`move_abs` call receives under the lowercased axis keyword. -/
theorem c3_linear_targets (cfg : InterpConfig) (m : ModalState)
    (params : Char → Option ℚ) (a : Char) (ha : a ∈ cfg.linear_axes) :
    (∀ raw, params a = some raw →
        linearTarget m params a =
          if m.absolute then (if m.units_mm then raw else raw * 25.4)
          else m.pos a + (if m.units_mm then raw else raw * 25.4)) ∧
      (params a = none → linearTarget m params a = m.pos a) ∧
      ∀ (drv : Driver) (g : ℤ), ∃ kw fv rapid,
        (handleLinearMove cfg drv g params m).calls = [DCall.moveAbs kw fv rapid] ∧
          (a.toLower, linearTarget m params a) ∈ kw := by
  refine ⟨?_, ?_, ?_⟩
  · intro raw h
    simp only [linearTarget, unitToMm, h]
  · intro h
    simp only [linearTarget, h]
  · intro drv g
    refine ⟨(cfg.linear_axes.map fun x => (x, linearTarget m params x)).map
        (fun p => (p.1.toLower, p.2)),
      some (match params 'F' with
        | some f => unitToMm m f
        | none => m.feed),
      decide (g = 0), ?_, ?_⟩
    · unfold handleLinearMove
      by_cases hr : drv.moveRaises = true <;> simp [hr]
    · have h1 : (a, linearTarget m params a) ∈
          cfg.linear_axes.map fun x => (x, linearTarget m params x) :=
        List.mem_map_of_mem _ ha
      exact List.mem_map_of_mem _ h1

/-- Witness for C3: on the spatial variant in the default state, a
parameter mapping with `X = 5` yields target 5 for axis X, and the emitted
`move_abs` call carries `('x', 5)`. -/
theorem c3_linear_targets_witness :
    linearTarget initState (fun c => if c = 'X' then some 5 else none) 'X' = 5 ∧
      ∃ kw fv rapid,
        (handleLinearMove cfg3D simDrv 1
            (fun c => if c = 'X' then some 5 else none) initState).calls
          = [DCall.moveAbs kw fv rapid] ∧
        ('x', linearTarget initState
            (fun c => if c = 'X' then some 5 else none) 'X') ∈ kw := by
  have h := c3_linear_targets cfg3D initState
    (fun c => if c = 'X' then some 5 else none) 'X' (by decide)
  constructor
  · rw [h.1 5 rfl]
    rfl
  · exact h.2.2 simDrv 1

/-- Counterexample to C4: the line `"G1 G94 X5"` raises.  Motion is
detected through the `G1`, but the collection loop lets the later `G94`
overwrite the motion code, so `_handle_extended_motion` receives 94 and
raises `NotImplementedError` instead of performing the G1 move. -/
theorem c4_counterexample :
    (exec cfg3D simDrv initState "G1 G94 X5").err = some (GErr.unsupported 94) ∧
      (exec cfg3D simDrv initState "G1 G94 X5").calls = [] := by
  constructor <;> rfl

/-- Claim C4 (corrected): an unrecognized `G` code (not 20/21/90/91) leaves
the modal state untouched and makes no driver call, and a line with no
configured motion code never raises; but on a line that does contain a
configured motion code, the last `G` word wins during motion collection,
so `"G1 G94 X5"` raises "unsupported motion code 94" and performs no move
at all. -/
theorem c4_unrecognized_g :
    (∀ (drv : Driver) (st : ModalState × List DCall) (v : List Char) (g : ℚ),
        parseDec v = some g → g ≠ 20 → g ≠ 21 → g ≠ 90 → g ≠ 91 →
          applyModalStep drv st ('G', v) = st) ∧
      (∀ (cfg : InterpConfig) (drv : Driver) (m : ModalState) (line : String),
        containsMotion cfg (findWords (pyStrip (stripComment line.toList))) = false →
          (exec cfg drv m line).err = none) ∧
      (exec cfg3D simDrv initState "G1 G94 X5").calls = [] := by
  refine ⟨?_, ?_, rfl⟩
  · intro drv st v g h h20 h21 h90 h91
    simp only [applyModalStep, h]
    simp [h20, h21, h90, h91]
  · intro cfg drv m line h
    exact (exec_no_motion cfg drv m line h).2.2

/-- Witness for C4 (corrected): `G94` alone is a recognized no-op — it
changes nothing and raises nothing. -/
theorem c4_unrecognized_g_witness :
    applyModalStep simDrv (initState, []) ('G', ['9', '4']) = (initState, []) ∧
      (exec cfg3D simDrv initState "G94 X5").err = none := by
  constructor
  · exact c4_unrecognized_g.1 simDrv (initState, []) ['9', '4'] 94 (by decide)
      (by norm_num) (by norm_num) (by norm_num) (by norm_num)
  · exact c4_unrecognized_g.2.1 cfg3D simDrv initState "G94 X5" (by decide)

/-- Claim C5 (confirmed): for a G0/G1 motion line, positions are committed
only after `move_abs` returns: when the driver raises, the exception
propagates out of `exec` (as the driver-error outcome) and every position
field still has its pre-command value. -/
theorem c5_driver_error_keeps_pos (cfg : InterpConfig) (drv : Driver)
    (m : ModalState) (line : String)
    (hr : drv.moveRaises = true)
    (hh : startsHome (pyStrip (stripComment line.toList)) = false)
    (hcm : containsMotion cfg (findWords (pyStrip (stripComment line.toList))) = true)
    (hg : (scanMotion cfg (findWords (pyStrip (stripComment line.toList)))).1 = some 0 ∨
      (scanMotion cfg (findWords (pyStrip (stripComment line.toList)))).1 = some 1) :
    (exec cfg drv m line).err = some GErr.driverError ∧
      (exec cfg drv m line).state.pos = m.pos := by
  have hclean : ¬(pyStrip (stripComment line.toList) = []) := by
    intro h0
    rw [h0] at hcm
    simp [containsMotion, findWords, findWordsFuel] at hcm
  have hwords : ¬(findWords (pyStrip (stripComment line.toList)) = []) := by
    intro h0
    rw [h0] at hcm
    simp [containsMotion] at hcm
  have hh' : ¬(startsHome (pyStrip (stripComment line.toList)) = true) := by
    rw [hh]
    simp
  have he : exec cfg drv m line =
      { state := (handleMotion cfg drv (findWords (pyStrip (stripComment line.toList)))
          (updateFeed (findWords (pyStrip (stripComment line.toList)))
            (applyModal drv (findWords (pyStrip (stripComment line.toList))) m).1)).state,
        calls := (applyModal drv (findWords (pyStrip (stripComment line.toList))) m).2 ++
          (handleMotion cfg drv (findWords (pyStrip (stripComment line.toList)))
            (updateFeed (findWords (pyStrip (stripComment line.toList)))
              (applyModal drv (findWords (pyStrip (stripComment line.toList))) m).1)).calls,
        err := (handleMotion cfg drv (findWords (pyStrip (stripComment line.toList)))
          (updateFeed (findWords (pyStrip (stripComment line.toList)))
            (applyModal drv (findWords (pyStrip (stripComment line.toList))) m).1)).err } := by
    simp only [exec, if_neg hclean, if_neg hh', if_neg hwords, if_pos hcm]
  have hm : ∀ m2 : ModalState,
      (handleMotion cfg drv (findWords (pyStrip (stripComment line.toList))) m2).err
          = some GErr.driverError ∧
        (handleMotion cfg drv (findWords (pyStrip (stripComment line.toList))) m2).state
          = m2 := by
    intro m2
    rcases hg with hg | hg
    · simp only [handleMotion, hg, if_pos rfl]
      simp only [handleLinearMove, if_pos hr]
      exact ⟨rfl, rfl⟩
    · have hne : ¬((scanMotion cfg (findWords (pyStrip (stripComment line.toList)))).1
          = some 0) := by
        rw [hg]
        simp
      simp only [handleMotion, if_neg hne, hg, if_pos rfl]
      simp only [handleLinearMove, if_pos hr]
      exact ⟨rfl, rfl⟩
  rw [he]
  refine ⟨(hm _).1, ?_⟩
  have := (hm (updateFeed (findWords (pyStrip (stripComment line.toList)))
    (applyModal drv (findWords (pyStrip (stripComment line.toList))) m).1)).2
  rw [this]
  exact (updateFeed_pos _ _).trans (applyModal_pos drv _ m)

/-- Witness for C5: a raising driver on `"G1 X5"` from the default state:
the error surfaces and the X position is still 0. -/
theorem c5_driver_error_keeps_pos_witness :
    (exec cfg3D { simDrv with moveRaises := true } initState "G1 X5").err
        = some GErr.driverError ∧
      (exec cfg3D { simDrv with moveRaises := true } initState "G1 X5").state.pos
        = initState.pos :=
  c5_driver_error_keeps_pos cfg3D { simDrv with moveRaises := true } initState
    "G1 X5" rfl (by decide) (by decide) (Or.inr (by decide))

/-- The sign-normalization of the naive angle difference always yields a
nonpositive sweep for clockwise and a nonnegative sweep for
counter-clockwise, because both `atan2` angles lie in `(-pi, pi]`. -/
theorem sweepNorm_sign (sx sy ex ey cx cy : ℝ) :
    sweepNorm true sx sy ex ey cx cy ≤ 0 ∧ 0 ≤ sweepNorm false sx sy ex ey cx cy := by
  have h1 := Complex.arg_le_pi (⟨sx - cx, sy - cy⟩ : ℂ)
  have h2 := Complex.neg_pi_lt_arg (⟨sx - cx, sy - cy⟩ : ℂ)
  have h3 := Complex.arg_le_pi (⟨ex - cx, ey - cy⟩ : ℂ)
  have h4 := Complex.neg_pi_lt_arg (⟨ex - cx, ey - cy⟩ : ℂ)
  have hpi := Real.pi_pos
  constructor
  · show (if 0 ≤ Complex.arg (⟨ex - cx, ey - cy⟩ : ℂ) -
          Complex.arg (⟨sx - cx, sy - cy⟩ : ℂ) then
        Complex.arg (⟨ex - cx, ey - cy⟩ : ℂ) -
          Complex.arg (⟨sx - cx, sy - cy⟩ : ℂ) - 2 * Real.pi
      else Complex.arg (⟨ex - cx, ey - cy⟩ : ℂ) -
        Complex.arg (⟨sx - cx, sy - cy⟩ : ℂ)) ≤ 0
    split_ifs with hd
    · linarith
    · push_neg at hd
      linarith
  · show 0 ≤ (if Complex.arg (⟨ex - cx, ey - cy⟩ : ℂ) -
          Complex.arg (⟨sx - cx, sy - cy⟩ : ℂ) ≤ 0 then
        Complex.arg (⟨ex - cx, ey - cy⟩ : ℂ) -
          Complex.arg (⟨sx - cx, sy - cy⟩ : ℂ) + 2 * Real.pi
      else Complex.arg (⟨ex - cx, ey - cy⟩ : ℂ) -
        Complex.arg (⟨sx - cx, sy - cy⟩ : ℂ))
    split_ifs with hd
    · linarith
    · push_neg at hd
      linarith

/-- Claim C6 (confirmed): for every planar arc command, after the
sign-normalization step the delivered sweep satisfies `sweep ≤ 0` for G2
(clockwise, `cw = true`) and `sweep ≥ 0` for G3 (counter-clockwise), for
every start position, end point and center. -/
theorem c6_arc_sweep_sign (m : MState2) (params : Char → Option ℝ) :
    arcSweep m true params ≤ 0 ∧ 0 ≤ arcSweep m false params := by
  unfold arcSweep
  exact sweepNorm_sign _ _ _ _ _ _

/-- Claim C7 (confirmed): the planar arc handler emits exactly
`max(12, ceil(|sweep| / max(maxStep, 1e-3)))` interpolation moves with
`maxStep = 2*acos(max(0, 1 - 0.02/max(radius, 1e-9)))`, and in particular
always at least 12 `move_abs` calls, for every state, direction and
parameter mapping — including degenerate zero-radius arcs. -/
theorem c7_arc_step_count (m : MState2) (cw : Bool) (params : Char → Option ℝ) :
    (handleArc m cw params).2.length =
        (max 12 ⌈|arcSweep m cw params| /
            max 1e-3 (2 * Real.arccos (max 0
              (1 - 0.02 / max (arcRadius m params) 1e-9)))⌉).toNat ∧
      12 ≤ (handleArc m cw params).2.length := by
  have hlen : (handleArc m cw params).2.length =
      (arcSteps (arcSweep m cw params) (arcRadius m params)).toNat := by
    unfold handleArc
    simp only [List.length_map, List.length_range]
  constructor
  · rw [hlen]
    rfl
  · rw [hlen]
    have h12 : (12 : ℤ) ≤ arcSteps (arcSweep m cw params) (arcRadius m params) :=
      le_max_left _ _
    have h := Int.toNat_le_toNat h12
    simpa using h

end CNC
